import Mathlib

/-!
Verification of the VRP optimizer service
(`services/api/services/vrp_optimizer.py`).

The Python module builds a CVRPTW model on top of the OR-Tools constraint
solver and extracts the solver's assignment into plain result records.  The
solver itself is an external library; everything the repository's own code
does — the haversine metric, the integer distance/time matrices, the input
validation, the constraint registration, and the solution-extraction walk —
is embedded below as Lean functions.  The solver's assignment is modelled
abstractly: a list `paths`, one entry per vehicle, giving the ordered
non-depot nodes on that vehicle's chain from its start index to its end
index.  The facts OR-Tools guarantees about any returned assignment
(chains are node-disjoint, the `Capacity` dimension bound holds, and
`NextVar i = i` exactly for the nodes on no chain) are collected in the
`ValidSolution` predicate.

Python `float` is embedded as `ℝ`, Python `int` as `ℤ`; `int(x)` is
truncation toward zero (`pythonTrunc`).
-/

set_option autoImplicit false
set_option linter.unusedVariables false
set_option linter.unnecessarySimpa false

namespace VRP

/-- A location with coordinates (`Location` dataclass).  Field defaults
match the Python dataclass defaults. -/
structure Location where
  id : String
  lat : ℝ
  lon : ℝ
  demand : ℤ := 1
  service_time_minutes : ℤ := 5
  time_window_start : Option ℤ := none
  time_window_end : Option ℤ := none
deriving Inhabited

/-- A vehicle for routing (`Vehicle` dataclass). -/
structure Vehicle where
  id : String
  capacity : ℤ
  start_location : Location
  end_location : Option Location := none
deriving Inhabited

/-- A stop in a route (`RouteStop` dataclass). -/
structure RouteStop where
  location_id : String
  sequence : ℕ
  lat : ℝ
  lon : ℝ
  arrival_time_minutes : ℤ
  departure_time_minutes : ℤ
  cumulative_distance_km : ℝ
  cumulative_time_minutes : ℤ
deriving Inhabited

/-- Optimized route for a vehicle (`VehicleRoute` dataclass). -/
structure VehicleRoute where
  vehicle_id : String
  stops : List RouteStop
  total_distance_km : ℝ
  total_time_minutes : ℤ
  total_demand : ℤ
  load_percentage : ℝ
deriving Inhabited

/-- Result of route optimization (`OptimizationResult` dataclass); the
field defaults are the dataclass defaults. -/
structure OptimizationResult where
  success : Bool
  routes : List VehicleRoute := []
  unassigned : List String := []
  total_distance_km : ℝ := 0
  total_time_minutes : ℤ := 0
  solve_time_ms : ℤ := 0
  error : Option String := none
deriving Inhabited

/-- Python `math.radians`: degrees to radians. -/
noncomputable def radians (x : ℝ) : ℝ := x * Real.pi / 180

/-- Python `math.atan2 y x`, the two-argument arctangent with the usual
quadrant convention. -/
noncomputable def atan2 (y x : ℝ) : ℝ :=
  if 0 < x then Real.arctan (y / x)
  else if x < 0 ∧ 0 ≤ y then Real.arctan (y / x) + Real.pi
  else if x < 0 ∧ y < 0 then Real.arctan (y / x) - Real.pi
  else if x = 0 ∧ 0 < y then Real.pi / 2
  else if x = 0 ∧ y < 0 then -(Real.pi / 2)
  else 0

/-- The method `VRPOptimizer.haversine_distance`: great-circle distance between two
points in kilometers, Earth radius `R = 6371` km. -/
noncomputable def haversine_distance (lat1 lon1 lat2 lon2 : ℝ) : ℝ :=
  let R : ℝ := 6371
  let lat1_rad := radians lat1
  let lat2_rad := radians lat2
  let delta_lat := radians (lat2 - lat1)
  let delta_lon := radians (lon2 - lon1)
  let a := Real.sin (delta_lat / 2) ^ 2 +
    Real.cos lat1_rad * Real.cos lat2_rad * Real.sin (delta_lon / 2) ^ 2
  let c := 2 * atan2 (Real.sqrt a) (Real.sqrt (1 - a))
  R * c

/-- Python `int(x)` on a float: truncation toward zero. -/
noncomputable def pythonTrunc (x : ℝ) : ℤ := if 0 ≤ x then ⌊x⌋ else ⌈x⌉

/-- The method `VRPOptimizer.create_distance_matrix`: the N×N matrix of pairwise
distances in whole meters (`int(dist_km * 1000)`), zero on the diagonal
(the matrix is initialised with zeros and only the `i != j` entries are
assigned). -/
noncomputable def create_distance_matrix (locations : List Location) : List (List ℤ) :=
  List.ofFn fun i : Fin locations.length =>
    List.ofFn fun j : Fin locations.length =>
      if i = j then 0
      else
        pythonTrunc
          (haversine_distance (locations.get i).lat (locations.get i).lon
              (locations.get j).lat (locations.get j).lon * 1000)

/-- The method `VRPOptimizer.create_time_matrix`: travel times in whole minutes,
`int(distance / (avg_speed_kmh * 1000 / 60))` off the diagonal, zero on
the diagonal. -/
noncomputable def create_time_matrix (distance_matrix : List (List ℤ))
    (avg_speed_kmh : ℝ) : List (List ℤ) :=
  let speed_m_per_min := avg_speed_kmh * 1000 / 60
  List.ofFn fun i : Fin distance_matrix.length =>
    List.ofFn fun j : Fin distance_matrix.length =>
      if i = j then 0
      else pythonTrunc ((((distance_matrix.getD i []).getD j 0 : ℤ) : ℝ) / speed_m_per_min)

/-- The Python signature declares `avg_speed_kmh: float = 30.0`; a call
that omits the argument computes `create_time_matrix` at speed 30. -/
noncomputable def create_time_matrix_default (distance_matrix : List (List ℤ)) :
    List (List ℤ) :=
  create_time_matrix distance_matrix 30

/-- Entry `m[i][j]` of a matrix held as a list of row lists.  (Python
indexing raises out of range; the claims below only index within range,
where `getD` coincides with it.) -/
def matEntry (m : List (List ℤ)) (i j : ℕ) : ℤ := (m.getD i []).getD j 0

/-- The extraction loop of `VRPOptimizer.optimize` (lines 333–362), one
vehicle at a time.  `node` is the node of the current routing index, `rest`
the remaining chain up to (but not including) the vehicle's end index;
the end index maps to the depot, node 0.  Returns
`(stops, route_distance, route_time, route_demand)`.

Per iteration the loop appends a `RouteStop` for the current node, adds the
node's demand when it is not the depot, then advances along `NextVar`,
adding the arc's distance (`GetArcCostForVehicle` is the registered
distance callback) and travel time.  The `Distance` dimension has zero
slack and starts its cumul at zero, so the solver's
`solution.Value(distance_dimension.CumulVar(index))` equals the running
sum of distance arcs from the vehicle's start, which is how
`cumulative_distance_km` is computed here. -/
noncomputable def walkRoute (locations : List Location) (dm tm : List (List ℤ)) :
    ℕ → List ℕ → ℤ → ℤ → ℤ → ℕ → List RouteStop × ℤ × ℤ × ℤ
  | node, rest, route_distance, route_time, route_demand, sequence =>
    let location := locations.getD node default
    let stop : RouteStop :=
      { location_id := location.id
        sequence := sequence
        lat := location.lat
        lon := location.lon
        arrival_time_minutes := route_time
        departure_time_minutes := route_time + location.service_time_minutes
        cumulative_distance_km := (route_distance : ℝ) / 1000
        cumulative_time_minutes := route_time }
    let route_demand1 := if node ≠ 0 then route_demand + location.demand else route_demand
    match rest with
    | [] =>
        ([stop], route_distance + matEntry dm node 0,
          route_time + matEntry tm node 0, route_demand1)
    | next :: rest1 =>
        let r := walkRoute locations dm tm next rest1
          (route_distance + matEntry dm node next)
          (route_time + matEntry tm node next) route_demand1 (sequence + 1)
        (stop :: r.1, r.2)

/-- Lines 364–376 of `optimize`: skip the route when only the depot was
emitted (`len(stops) > 1` fails), otherwise build the `VehicleRoute`
record, guarding the load-percentage division on `vehicle.capacity > 0`. -/
noncomputable def extractVehicleRoute (locations : List Location)
    (vehicles : List Vehicle) (dm tm : List (List ℤ)) (vehicle_idx : ℕ)
    (path : List ℕ) : Option VehicleRoute :=
  let w := walkRoute locations dm tm 0 path 0 0 0 0
  if w.1.length > 1 then
    let vehicle := vehicles.getD vehicle_idx default
    some
      { vehicle_id := vehicle.id
        stops := w.1
        total_distance_km := (w.2.1 : ℝ) / 1000
        total_time_minutes := w.2.2.1
        total_demand := w.2.2.2
        load_percentage :=
          if vehicle.capacity > 0 then ((w.2.2.2 : ℝ) / (vehicle.capacity : ℝ)) * 100
          else 0 }
  else none

/-- The test `solution.Value(routing.NextVar(index)) == index` for the index of a
non-depot node: in an OR-Tools assignment the next-variable of a node is
the node itself exactly when the node lies on no vehicle's chain. -/
def selfLoop (paths : List (List ℕ)) (node : ℕ) : Bool :=
  paths.all fun p => !(p.contains node)

/-- Lines 319–399 of `optimize`: extract the solver's assignment into an
`OptimizationResult`.  Routes are collected over `range(num_vehicles)`;
unassigned ids over `range(1, num_locations)` in node order; the aggregate
totals are the sums over the emitted routes (the Python accumulates them
inside the same loop). -/
noncomputable def extractSolution (locations : List Location)
    (vehicles : List Vehicle) (dm tm : List (List ℤ))
    (paths : List (List ℕ)) (solve_time_ms : ℤ) : OptimizationResult :=
  let routes := (List.range vehicles.length).filterMap fun vehicle_idx =>
    extractVehicleRoute locations vehicles dm tm vehicle_idx (paths.getD vehicle_idx [])
  let unassigned := (List.range' 1 (locations.length - 1)).filterMap fun node =>
    if selfLoop paths node then some (locations.getD node default).id else none
  { success := true
    routes := routes
    unassigned := unassigned
    total_distance_km := (routes.map VehicleRoute.total_distance_km).sum
    total_time_minutes := (routes.map VehicleRoute.total_time_minutes).sum
    solve_time_ms := solve_time_ms }

/-- Lines 273–284 of `optimize`: the time-window ranges registered on the
`Time` dimension.  The loop skips the depot (index 0) and calls
`SetRange(start, end)` only when both bounds are not `None`; a location
with exactly one bound set contributes nothing. -/
def timeWindowConstraints (locations : List Location) : List (ℕ × ℤ × ℤ) :=
  (List.range locations.length).filterMap fun location_idx =>
    if location_idx = 0 then none
    else
      let location := locations.getD location_idx default
      match location.time_window_start, location.time_window_end with
      | some s, some e => some (location_idx, s, e)
      | _, _ => none

/-- The method `VRPOptimizer.optimize`.  The OR-Tools solve itself is external; it is
modelled as an oracle from the registered time-window constraints to an
optional assignment (`none` = "No feasible solution found").  `solve_time`
stands for the measured wall clock of a performed solve; the early return
for missing input does not set `solve_time_ms`, so that result carries the
dataclass default `0`.  The `use_time_windows` flag decides whether the
`Time` dimension and its window ranges are registered; `balance_routes`
only adds a span cost to the objective and `avg_speed_kmh` feeds the time
matrix.  All failures are returned as data in `OptimizationResult.error`;
the function is total and raises nothing. -/
noncomputable def optimize (locations : List Location) (vehicles : List Vehicle)
    (use_time_windows : Bool) (balance_routes : Bool) (avg_speed_kmh : ℝ)
    (solver : List (ℕ × ℤ × ℤ) → Option (List (List ℕ)))
    (solve_time : ℤ) : OptimizationResult :=
  if locations.isEmpty || vehicles.isEmpty then
    { success := false, error := some "No locations or vehicles provided" }
  else
    let distance_matrix := create_distance_matrix locations
    let time_matrix := create_time_matrix distance_matrix avg_speed_kmh
    let twc := if use_time_windows then timeWindowConstraints locations else []
    match solver twc with
    | none =>
        { success := false, error := some "No feasible solution found",
          solve_time_ms := solve_time }
    | some paths =>
        extractSolution locations vehicles distance_matrix time_matrix paths solve_time

/-- Total demand of the nodes on one vehicle's chain. -/
def pathDemand (locations : List Location) (p : List ℕ) : ℤ :=
  (p.map fun i => (locations.getD i default).demand).sum

/-- What OR-Tools guarantees about any assignment it returns for the model
built by `optimize`: every chained node is a valid non-depot node, the
chains are node-disjoint and repetition-free, there is one chain per
vehicle, and the `Capacity` dimension (demand as unary transit, zero
slack, upper bound `vehicle.capacity` — a hard bound registered by
`AddDimensionWithVehicleCapacity`, not a penalised soft bound) holds, i.e.
each chain's total demand is at most its vehicle's capacity. -/
structure ValidSolution (locations : List Location) (vehicles : List Vehicle)
    (paths : List (List ℕ)) : Prop where
  paths_length : paths.length = vehicles.length
  nodes_pos : ∀ p ∈ paths, ∀ i ∈ p, 0 < i
  nodes_lt : ∀ p ∈ paths, ∀ i ∈ p, i < locations.length
  nodes_nodup : paths.flatten.Nodup
  capacity_le : ∀ v : ℕ, v < paths.length →
    pathDemand locations (paths.getD v []) ≤ (vehicles.getD v default).capacity

/-- A concrete three-location input: the depot `D` and two stops `A`, `B`
(all fields beyond the ids use the dataclass defaults where possible). -/
noncomputable def exLocations : List Location :=
  [{ id := "D", lat := 0, lon := 0, demand := 0, service_time_minutes := 0 },
   { id := "A", lat := 0, lon := 0 },
   { id := "B", lat := 0, lon := 0 }]

/-- A single vehicle of capacity 10 starting at the depot. -/
noncomputable def exVehicles : List Vehicle :=
  [{ id := "V1", capacity := 10,
     start_location := { id := "D", lat := 0, lon := 0, demand := 0, service_time_minutes := 0 } }]

/-- A concrete solver assignment: the one vehicle visits node 1 then node 2. -/
def exPaths : List (List ℕ) := [[1, 2]]

/-- A solver oracle that returns `exPaths`. -/
def exSolver : List (ℕ × ℤ × ℤ) → Option (List (List ℕ)) := fun _ => some exPaths

/-- A two-location input whose stop `A` has only the lower time-window
bound set. -/
noncomputable def twLocations : List Location :=
  [{ id := "D", lat := 0, lon := 0, demand := 0, service_time_minutes := 0 },
   { id := "A", lat := 0, lon := 0, time_window_start := some 10 }]

/-- A concrete 3×3 integer distance matrix (meters). -/
def exDM : List (List ℤ) := [[0, 10, 12], [10, 0, 7], [12, 7, 0]]

/-- A concrete 3×3 integer travel-time matrix (minutes). -/
def exTM : List (List ℤ) := [[0, 10, 10], [10, 0, 10], [10, 10, 0]]

/-- The emitted stop ids of one vehicle's walk: the start node followed by
the chain's nodes, in order; the end index is never emitted because the
loop stops as soon as `routing.IsEnd(index)` holds. -/
theorem walkRoute_stops_ids (locations : List Location) (dm tm : List (List ℤ)) :
    ∀ (rest : List ℕ) (node : ℕ) (d t dem : ℤ) (seq : ℕ),
      (walkRoute locations dm tm node rest d t dem seq).1.map RouteStop.location_id =
        (node :: rest).map fun i => (locations.getD i default).id := by
  intro rest
  induction rest with
  | nil => intro node d t dem seq; simp [walkRoute]
  | cons next rest1 ih =>
      intro node d t dem seq
      simp only [walkRoute, List.map_cons, List.map]
      rw [ih]
      simp

/-- One emitted stop per visited node, plus the start. -/
theorem walkRoute_stops_length (locations : List Location) (dm tm : List (List ℤ))
    (rest : List ℕ) (node : ℕ) (d t dem : ℤ) (seq : ℕ) :
    (walkRoute locations dm tm node rest d t dem seq).1.length = rest.length + 1 := by
  have h := congrArg List.length (walkRoute_stops_ids locations dm tm rest node d t dem seq)
  simpa using h

/-- The demand accumulated by the walk: every non-depot visited node
contributes its demand. -/
theorem walkRoute_demand (locations : List Location) (dm tm : List (List ℤ)) :
    ∀ (rest : List ℕ), (∀ i ∈ rest, i ≠ 0) →
      ∀ (node : ℕ) (d t dem : ℤ) (seq : ℕ),
        (walkRoute locations dm tm node rest d t dem seq).2.2.2 =
          (if node ≠ 0 then dem + (locations.getD node default).demand else dem) +
            pathDemand locations rest := by
  intro rest
  induction rest with
  | nil =>
      intro _ node d t dem seq
      simp [walkRoute, pathDemand]
  | cons next rest1 ih =>
      intro hpos node d t dem seq
      have hnext : next ≠ 0 := hpos next (by simp)
      have hrest1 : ∀ i ∈ rest1, i ≠ 0 := fun i hi => hpos i (by simp [hi])
      simp only [walkRoute]
      rw [ih hrest1]
      simp only [if_pos hnext, pathDemand, List.map_cons, List.sum_cons]
      by_cases hnode : node ≠ 0 <;> simp [hnode, pathDemand] <;> ring

/-- Unfolding of a successful `extractVehicleRoute`: the emitted route's
fields in terms of the walk. -/
theorem extractVehicleRoute_spec (locations : List Location) (vehicles : List Vehicle)
    (dm tm : List (List ℤ)) (k : ℕ) (path : List ℕ) (rt : VehicleRoute)
    (h : extractVehicleRoute locations vehicles dm tm k path = some rt) :
    path ≠ [] ∧
    rt.vehicle_id = (vehicles.getD k default).id ∧
    rt.stops.map RouteStop.location_id =
      (locations.getD 0 default).id :: (path.map fun i => (locations.getD i default).id) ∧
    rt.total_demand = (walkRoute locations dm tm 0 path 0 0 0 0).2.2.2 ∧
    rt.load_percentage =
      (if (vehicles.getD k default).capacity > 0 then
        (rt.total_demand : ℝ) / ((vehicles.getD k default).capacity : ℝ) * 100
      else 0) := by
  unfold extractVehicleRoute at h
  by_cases hlen : (walkRoute locations dm tm 0 path 0 0 0 0).1.length > 1
  · rw [if_pos hlen] at h
    obtain rfl := (Option.some.inj h).symm
    refine ⟨?_, rfl, ?_, rfl, rfl⟩
    · intro hempty
      rw [walkRoute_stops_length, hempty] at hlen
      simp at hlen
    · rw [walkRoute_stops_ids]
      simp
  · rw [if_neg hlen] at h
    exact absurd h (by simp)

/-- A vehicle whose chain is non-empty always yields a route. -/
theorem extractVehicleRoute_isSome (locations : List Location) (vehicles : List Vehicle)
    (dm tm : List (List ℤ)) (k : ℕ) (path : List ℕ) (hne : path ≠ []) :
    ∃ rt, extractVehicleRoute locations vehicles dm tm k path = some rt := by
  unfold extractVehicleRoute
  rw [if_pos]
  · exact ⟨_, rfl⟩
  · rw [walkRoute_stops_length]
    have : path.length ≠ 0 := fun h => hne (List.length_eq_zero.mp h)
    omega

/-- Membership in the extracted route list. -/
theorem mem_routes_iff (locations : List Location) (vehicles : List Vehicle)
    (dm tm : List (List ℤ)) (paths : List (List ℕ)) (st : ℤ) (rt : VehicleRoute) :
    rt ∈ (extractSolution locations vehicles dm tm paths st).routes ↔
      ∃ v, v < vehicles.length ∧
        extractVehicleRoute locations vehicles dm tm v (paths.getD v []) = some rt := by
  simp [extractSolution, List.mem_filterMap, List.mem_range]

/-- Membership in the extracted unassigned list. -/
theorem mem_unassigned_iff (locations : List Location) (vehicles : List Vehicle)
    (dm tm : List (List ℤ)) (paths : List (List ℕ)) (st : ℤ) (s : String) :
    s ∈ (extractSolution locations vehicles dm tm paths st).unassigned ↔
      ∃ node, (1 ≤ node ∧ node < 1 + (locations.length - 1)) ∧
        selfLoop paths node = true ∧ (locations.getD node default).id = s := by
  simp only [extractSolution, List.mem_filterMap, List.mem_range'_1,
    Option.ite_none_right_eq_some, Option.some.injEq]

/-- The predicate `selfLoop` spelled as chain membership. -/
theorem selfLoop_iff (paths : List (List ℕ)) (node : ℕ) :
    selfLoop paths node = true ↔ ∀ p ∈ paths, node ∉ p := by
  simp [selfLoop]

/-- With node-disjoint chains, a node lies on the chain of at most one
vehicle. -/
theorem node_chain_unique (paths : List (List ℕ)) (hnd : paths.flatten.Nodup)
    (v w node : ℕ) (hv : v < paths.length) (hw : w < paths.length)
    (hnv : node ∈ paths.getD v []) (hnw : node ∈ paths.getD w []) : v = w := by
  have hdisj := (List.nodup_flatten.mp hnd).2
  rw [List.getD_eq_getElem _ _ hv] at hnv
  rw [List.getD_eq_getElem _ _ hw] at hnw
  rcases lt_trichotomy v w with hlt | heq | hgt
  · exact absurd hnw ((List.pairwise_iff_getElem.mp hdisj v w hv hw hlt) hnv)
  · exact heq
  · exact absurd hnv ((List.pairwise_iff_getElem.mp hdisj w v hw hv hgt) hnw)

/-- Partition of a non-depot node between the extracted routes and the
extracted unassigned list, given distinct location ids and a constraint-
satisfying assignment. -/
theorem extract_partition (locations : List Location) (vehicles : List Vehicle)
    (dm tm : List (List ℤ)) (paths : List (List ℕ)) (st : ℤ)
    (hvalid : ValidSolution locations vehicles paths)
    (hinj : ∀ i, i < locations.length → ∀ j, j < locations.length →
      (locations.getD i default).id = (locations.getD j default).id → i = j)
    (node : ℕ) (h0 : 0 < node) (hn : node < locations.length) :
    (((∃! rt, rt ∈ (extractSolution locations vehicles dm tm paths st).routes ∧
        (locations.getD node default).id ∈ rt.stops.map RouteStop.location_id) ∧
      (locations.getD node default).id ∉
        (extractSolution locations vehicles dm tm paths st).unassigned) ∨
     ((∀ rt ∈ (extractSolution locations vehicles dm tm paths st).routes,
        (locations.getD node default).id ∉ rt.stops.map RouteStop.location_id) ∧
      (locations.getD node default).id ∈
        (extractSolution locations vehicles dm tm paths st).unassigned)) ∧
    (selfLoop paths node = true ↔
      (locations.getD node default).id ∈
        (extractSolution locations vehicles dm tm paths st).unassigned) := by
  have hlen0 : 0 < locations.length := by omega
  have huiff : (locations.getD node default).id ∈
      (extractSolution locations vehicles dm tm paths st).unassigned ↔
      selfLoop paths node = true := by
    rw [mem_unassigned_iff]
    constructor
    · rintro ⟨m, ⟨hm1, hm2⟩, hsl, hid⟩
      have hmlt : m < locations.length := by omega
      have hmn : m = node := hinj m hmlt node hn hid
      rwa [hmn] at hsl
    · intro hsl
      exact ⟨node, ⟨h0, by omega⟩, hsl, rfl⟩
  have hcontain : ∀ rt ∈ (extractSolution locations vehicles dm tm paths st).routes,
      (locations.getD node default).id ∈ rt.stops.map RouteStop.location_id →
      ∃ v, v < vehicles.length ∧
        extractVehicleRoute locations vehicles dm tm v (paths.getD v []) = some rt ∧
        node ∈ paths.getD v [] := by
    intro rt hrt hid
    obtain ⟨v, hvlen, hsome⟩ := (mem_routes_iff _ _ _ _ _ _ _).mp hrt
    obtain ⟨hne, hidv, hids, -, -⟩ := extractVehicleRoute_spec _ _ _ _ _ _ _ hsome
    rw [hids] at hid
    rcases List.mem_cons.mp hid with hdep | hmem
    · exact absurd (hinj node hn 0 hlen0 hdep) (by omega)
    · obtain ⟨j, hj, hjid⟩ := List.mem_map.mp hmem
      have hvp : v < paths.length := hvalid.paths_length ▸ hvlen
      have hpmem : paths.getD v [] ∈ paths := by
        rw [List.getD_eq_getElem _ _ hvp]
        exact List.getElem_mem hvp
      have hjlt : j < locations.length := hvalid.nodes_lt _ hpmem j hj
      have hjn : j = node := hinj j hjlt node hn hjid
      exact ⟨v, hvlen, hsome, hjn ▸ hj⟩
  refine ⟨?_, huiff.symm⟩
  by_cases hsl : selfLoop paths node = true
  · right
    refine ⟨?_, huiff.mpr hsl⟩
    intro rt hrt hid
    obtain ⟨v, hvlen, -, hnmem⟩ := hcontain rt hrt hid
    have hvp : v < paths.length := hvalid.paths_length ▸ hvlen
    have hpmem : paths.getD v [] ∈ paths := by
      rw [List.getD_eq_getElem _ _ hvp]
      exact List.getElem_mem hvp
    exact (selfLoop_iff paths node).mp hsl _ hpmem hnmem
  · left
    have hex : ∃ p ∈ paths, node ∈ p := by
      by_contra hc
      push_neg at hc
      exact hsl ((selfLoop_iff paths node).mpr hc)
    obtain ⟨p, hp, hnp⟩ := hex
    obtain ⟨v, hvp, hpv⟩ := List.mem_iff_getElem.mp hp
    have hvd : node ∈ paths.getD v [] := by
      rw [List.getD_eq_getElem _ _ hvp, hpv]
      exact hnp
    have hvlen : v < vehicles.length := hvalid.paths_length ▸ hvp
    have hne : paths.getD v [] ≠ [] := by
      intro h
      rw [h] at hvd
      exact absurd hvd (by simp)
    obtain ⟨rt0, hrt0⟩ := extractVehicleRoute_isSome locations vehicles dm tm v _ hne
    have hrt0mem : rt0 ∈ (extractSolution locations vehicles dm tm paths st).routes :=
      (mem_routes_iff _ _ _ _ _ _ _).mpr ⟨v, hvlen, hrt0⟩
    obtain ⟨-, -, hids0, -, -⟩ := extractVehicleRoute_spec _ _ _ _ _ _ _ hrt0
    have hnid0 : (locations.getD node default).id ∈ rt0.stops.map RouteStop.location_id := by
      rw [hids0]
      exact List.mem_cons.mpr (Or.inr (List.mem_map.mpr ⟨node, hvd, rfl⟩))
    refine ⟨⟨rt0, ⟨hrt0mem, hnid0⟩, ?_⟩, fun hmem => hsl (huiff.mp hmem)⟩
    rintro rt' ⟨hrt', hnid'⟩
    obtain ⟨w, hwlen, hsome', hnw⟩ := hcontain rt' hrt' hnid'
    have hweq : w = v := node_chain_unique paths hvalid.nodes_nodup w v node
      (hvalid.paths_length ▸ hwlen) hvp hnw hvd
    rw [hweq] at hsome'
    exact Option.some.inj (hsome'.symm.trans hrt0)

/-- Claim C6: `haversine_distance` is symmetric in its two points, and the
distance from a point to itself is `0`.  It is a pure function of its four
real arguments (hence deterministic), with Earth radius 6371 km fixed in
its definition. -/
theorem haversine_symm_and_self :
    (∀ lat1 lon1 lat2 lon2 : ℝ,
        haversine_distance lat1 lon1 lat2 lon2 = haversine_distance lat2 lon2 lat1 lon1) ∧
    (∀ lat lon : ℝ, haversine_distance lat lon lat lon = 0) := by
  constructor
  · intro lat1 lon1 lat2 lon2
    simp only [haversine_distance]
    have h1 : radians (lat2 - lat1) = -(radians (lat1 - lat2)) := by
      simp only [radians]; ring
    have h2 : radians (lon2 - lon1) = -(radians (lon1 - lon2)) := by
      simp only [radians]; ring
    rw [h1, h2]
    simp only [neg_div, Real.sin_neg, neg_sq]
    ring_nf
  · intro lat lon
    simp only [haversine_distance, sub_self]
    have h0 : radians 0 = 0 := by simp [radians]
    rw [h0]
    norm_num [Real.sin_zero, Real.sqrt_zero, Real.sqrt_one, atan2, Real.arctan_zero]

/-- Claim C1: for every `optimize` call whose solver returns an assignment
satisfying the model's constraints (in particular the hard `Capacity`
dimension bound — `AddDimensionWithVehicleCapacity` registers
`vehicle_capacities` as inviolable upper bounds, there is no soft-bound
penalty), every returned route's `total_demand` is at most the capacity of
the vehicle the route is assigned to. -/
theorem routes_respect_capacity (locations : List Location) (vehicles : List Vehicle)
    (uw br : Bool) (sp : ℝ) (solver : List (ℕ × ℤ × ℤ) → Option (List (List ℕ)))
    (st : ℤ)
    (hsol : ∀ twc paths, solver twc = some paths → ValidSolution locations vehicles paths) :
    ∀ rt ∈ (optimize locations vehicles uw br sp solver st).routes,
      ∃ v : ℕ, v < vehicles.length ∧
        rt.vehicle_id = (vehicles.getD v default).id ∧
        rt.total_demand ≤ (vehicles.getD v default).capacity := by
  intro rt hrt
  simp only [optimize] at hrt
  by_cases hempty : locations.isEmpty || vehicles.isEmpty
  · rw [if_pos hempty] at hrt
    simp at hrt
  · rw [if_neg hempty] at hrt
    rcases hs : solver (if uw then timeWindowConstraints locations else []) with _ | paths
    · rw [hs] at hrt
      simp at hrt
    · rw [hs] at hrt
      have hvalid := hsol _ _ hs
      obtain ⟨v, hvlen, hsome⟩ := (mem_routes_iff _ _ _ _ _ _ _).mp hrt
      obtain ⟨hne, hid, hids, hdem, hload⟩ :=
        extractVehicleRoute_spec _ _ _ _ _ _ _ hsome
      refine ⟨v, hvlen, hid, ?_⟩
      have hvp : v < paths.length := hvalid.paths_length ▸ hvlen
      have hmem : paths.getD v [] ∈ paths := by
        rw [List.getD_eq_getElem _ _ hvp]
        exact List.getElem_mem hvp
      have hpos : ∀ i ∈ paths.getD v [], i ≠ 0 :=
        fun i hi => (hvalid.nodes_pos _ hmem i hi).ne'
      rw [hdem, walkRoute_demand locations _ _ _ hpos]
      simpa using hvalid.capacity_le v hvp

/-- Witness for C1 at a concrete input: one vehicle of capacity 10 serving
the two unit-demand stops. -/
theorem routes_respect_capacity_witness :
    (∀ twc paths, exSolver twc = some paths → ValidSolution exLocations exVehicles paths) ∧
    (∀ rt ∈ (optimize exLocations exVehicles false true 30 exSolver 0).routes,
      ∃ v : ℕ, v < exVehicles.length ∧
        rt.vehicle_id = (exVehicles.getD v default).id ∧
        rt.total_demand ≤ (exVehicles.getD v default).capacity) := by
  have hsol : ∀ twc paths, exSolver twc = some paths →
      ValidSolution exLocations exVehicles paths := by
    intro twc paths h
    obtain rfl := Option.some.inj h
    exact ⟨by decide, by decide, by decide, by decide, by decide⟩
  exact ⟨hsol, routes_respect_capacity exLocations exVehicles false true 30 exSolver 0 hsol⟩

/-- Claim C9: every returned route's `load_percentage` is
`total_demand / capacity * 100` when the assigned vehicle's capacity is
positive, and `0` otherwise — in particular `0` when the capacity is `0`;
the division is behind the `vehicle.capacity > 0` guard. -/
theorem load_percentage_guarded (locations : List Location) (vehicles : List Vehicle)
    (uw br : Bool) (sp : ℝ) (solver : List (ℕ × ℤ × ℤ) → Option (List (List ℕ)))
    (st : ℤ) :
    ∀ rt ∈ (optimize locations vehicles uw br sp solver st).routes,
      ∃ v : ℕ, v < vehicles.length ∧
        rt.vehicle_id = (vehicles.getD v default).id ∧
        rt.load_percentage =
          (if (vehicles.getD v default).capacity > 0 then
            (rt.total_demand : ℝ) / ((vehicles.getD v default).capacity : ℝ) * 100
          else 0) ∧
        ((vehicles.getD v default).capacity = 0 → rt.load_percentage = 0) := by
  intro rt hrt
  simp only [optimize] at hrt
  by_cases hempty : locations.isEmpty || vehicles.isEmpty
  · rw [if_pos hempty] at hrt
    simp at hrt
  · rw [if_neg hempty] at hrt
    rcases hs : solver (if uw then timeWindowConstraints locations else []) with _ | paths
    · rw [hs] at hrt
      simp at hrt
    · rw [hs] at hrt
      obtain ⟨v, hvlen, hsome⟩ := (mem_routes_iff _ _ _ _ _ _ _).mp hrt
      obtain ⟨hne, hid, hids, hdem, hload⟩ :=
        extractVehicleRoute_spec _ _ _ _ _ _ _ hsome
      refine ⟨v, hvlen, hid, hload, fun hcap => ?_⟩
      rw [hload, if_neg (by omega)]

/-- Witness for C9 at a concrete input. -/
theorem load_percentage_guarded_witness :
    ((optimize exLocations exVehicles false true 30 exSolver 0).routes.getD 0 default) ∈
        (optimize exLocations exVehicles false true 30 exSolver 0).routes ∧
    (∃ v : ℕ, v < exVehicles.length ∧
      ((optimize exLocations exVehicles false true 30 exSolver 0).routes.getD 0
          default).vehicle_id = (exVehicles.getD v default).id ∧
      ((optimize exLocations exVehicles false true 30 exSolver 0).routes.getD 0
          default).load_percentage =
        (if (exVehicles.getD v default).capacity > 0 then
          (((optimize exLocations exVehicles false true 30 exSolver 0).routes.getD 0
              default).total_demand : ℝ) /
            ((exVehicles.getD v default).capacity : ℝ) * 100
        else 0) ∧
      ((exVehicles.getD v default).capacity = 0 →
        ((optimize exLocations exVehicles false true 30 exSolver 0).routes.getD 0
            default).load_percentage = 0)) := by
  have hlen : 0 < (optimize exLocations exVehicles false true 30 exSolver 0).routes.length := by
    decide
  have hmem : ((optimize exLocations exVehicles false true 30 exSolver 0).routes.getD 0 default) ∈
      (optimize exLocations exVehicles false true 30 exSolver 0).routes := by
    rw [List.getD_eq_getElem _ _ hlen]
    exact List.getElem_mem hlen
  exact ⟨hmem, load_percentage_guarded exLocations exVehicles false true 30 exSolver 0 _ hmem⟩

/-- Claim C3 (amended): every returned route's emitted stop sequence is the
depot followed by the route's non-depot stops in visiting order.  The
emitted sequence starts at the depot; the closing depot visit is *not*
emitted (the extraction loop exits at the vehicle's end index before
appending it), although its arc is still accumulated into the route
totals. -/
theorem routes_start_at_depot (locations : List Location) (vehicles : List Vehicle)
    (uw br : Bool) (sp : ℝ) (solver : List (ℕ × ℤ × ℤ) → Option (List (List ℕ)))
    (st : ℤ)
    (hsol : ∀ twc paths, solver twc = some paths → ValidSolution locations vehicles paths) :
    ∀ rt ∈ (optimize locations vehicles uw br sp solver st).routes,
      ∃ path : List ℕ, path ≠ [] ∧
        (∀ i ∈ path, 0 < i ∧ i < locations.length) ∧
        rt.stops.map RouteStop.location_id =
          (locations.getD 0 default).id :: (path.map fun i => (locations.getD i default).id) := by
  intro rt hrt
  simp only [optimize] at hrt
  by_cases hempty : locations.isEmpty || vehicles.isEmpty
  · rw [if_pos hempty] at hrt
    simp at hrt
  · rw [if_neg hempty] at hrt
    rcases hs : solver (if uw then timeWindowConstraints locations else []) with _ | paths
    · rw [hs] at hrt
      simp at hrt
    · rw [hs] at hrt
      have hvalid := hsol _ _ hs
      obtain ⟨v, hvlen, hsome⟩ := (mem_routes_iff _ _ _ _ _ _ _).mp hrt
      obtain ⟨hne, hid, hids, hdem, hload⟩ :=
        extractVehicleRoute_spec _ _ _ _ _ _ _ hsome
      have hvp : v < paths.length := hvalid.paths_length ▸ hvlen
      have hmem : paths.getD v [] ∈ paths := by
        rw [List.getD_eq_getElem _ _ hvp]
        exact List.getElem_mem hvp
      exact ⟨paths.getD v [], hne,
        fun i hi => ⟨hvalid.nodes_pos _ hmem i hi, hvalid.nodes_lt _ hmem i hi⟩, hids⟩

/-- Witness for the amended C3 at a concrete input. -/
theorem routes_start_at_depot_witness :
    (∀ twc paths, exSolver twc = some paths → ValidSolution exLocations exVehicles paths) ∧
    ((optimize exLocations exVehicles false true 30 exSolver 0).routes.getD 0 default) ∈
        (optimize exLocations exVehicles false true 30 exSolver 0).routes ∧
    (∃ path : List ℕ, path ≠ [] ∧
      (∀ i ∈ path, 0 < i ∧ i < exLocations.length) ∧
      ((optimize exLocations exVehicles false true 30 exSolver 0).routes.getD 0
          default).stops.map RouteStop.location_id =
        (exLocations.getD 0 default).id ::
          (path.map fun i => (exLocations.getD i default).id)) := by
  have hsol : ∀ twc paths, exSolver twc = some paths →
      ValidSolution exLocations exVehicles paths := by
    intro twc paths h
    obtain rfl := Option.some.inj h
    exact ⟨by decide, by decide, by decide, by decide, by decide⟩
  have hlen : 0 < (optimize exLocations exVehicles false true 30 exSolver 0).routes.length := by
    decide
  have hmem : ((optimize exLocations exVehicles false true 30 exSolver 0).routes.getD 0 default) ∈
      (optimize exLocations exVehicles false true 30 exSolver 0).routes := by
    rw [List.getD_eq_getElem _ _ hlen]
    exact List.getElem_mem hlen
  exact ⟨hsol, hmem,
    routes_start_at_depot exLocations exVehicles false true 30 exSolver 0 hsol _ hmem⟩

/-- Counterexample to C3 as stated: on a successful `optimize` call whose
single vehicle visits `A` then `B`, the emitted stop ids are
`["D", "A", "B"]` — the depot is the first emitted stop but the last
emitted stop is `B`, not the depot.  The assignment satisfies every model
constraint (`ValidSolution`) and the call succeeds. -/
theorem route_final_depot_not_emitted :
    ((optimize exLocations exVehicles false true 30 exSolver 0).routes.map
        fun rt => rt.stops.map RouteStop.location_id) = [["D", "A", "B"]] ∧
    (["D", "A", "B"] : List String).getLast? = some "B" ∧
    ("B" : String) ≠ "D" ∧
    ValidSolution exLocations exVehicles exPaths ∧
    (optimize exLocations exVehicles false true 30 exSolver 0).success = true := by
  exact ⟨by decide, by decide, by decide,
    ⟨by decide, by decide, by decide, by decide, by decide⟩, by decide⟩

/-- Claim C4, evaluated at a failing input: with travel times
`tm[0][1] = tm[1][2] = 10` and a 5-minute service time at stop `A`, the
third emitted stop (`B`) is reported with `arrival_time_minutes = 20`,
the cumulative travel time alone; the claimed value — cumulative travel
plus the service time of the preceding stops — is `25`.  The extraction
accumulates `route_time` only from `time_matrix`, never adding
`service_time_minutes`, although the model's own time callback
(lines 255–260) defines cumulative time as travel plus service. -/
theorem arrival_time_omits_service :
    ((((extractSolution exLocations exVehicles exDM exTM exPaths 0).routes.getD 0
        default).stops.getD 2 default).arrival_time_minutes = 20) ∧
    (matEntry exTM 0 1 + matEntry exTM 1 2 = 20) ∧
    ((exLocations.getD 0 default).service_time_minutes = 0) ∧
    ((exLocations.getD 1 default).service_time_minutes = 5) ∧
    ((20 : ℤ) ≠ 20 + (0 + 5)) ∧
    (((extractSolution exLocations exVehicles exDM exTM exPaths 0).routes.getD 0
        default).stops.getD 2 default).location_id = "B" := by
  exact ⟨by decide, by decide, by decide, by decide, by decide, by decide⟩

/-- Claim C5: an empty stop list or an empty vehicle list makes `optimize`
return (not raise) a failed result with the fixed non-empty message
"No locations or vehicles provided"; no solve is attempted (the result
does not depend on the solver oracle at all), and `solve_time_ms` is the
untouched dataclass default `0`. -/
theorem empty_input_returns_error (locations : List Location) (vehicles : List Vehicle)
    (uw br : Bool) (sp : ℝ) (solver : List (ℕ × ℤ × ℤ) → Option (List (List ℕ)))
    (st : ℤ) (h : locations = [] ∨ vehicles = []) :
    (optimize locations vehicles uw br sp solver st).success = false ∧
    (optimize locations vehicles uw br sp solver st).error =
      some "No locations or vehicles provided" ∧
    "No locations or vehicles provided" ≠ "" ∧
    (optimize locations vehicles uw br sp solver st).solve_time_ms = 0 ∧
    (optimize locations vehicles uw br sp solver st).routes = [] ∧
    (∀ solver2 : List (ℕ × ℤ × ℤ) → Option (List (List ℕ)),
      optimize locations vehicles uw br sp solver2 st =
        optimize locations vehicles uw br sp solver st) := by
  have hempty : (locations.isEmpty || vehicles.isEmpty) = true := by
    rcases h with rfl | rfl <;> simp
  refine ⟨?_, ?_, by decide, ?_, ?_, ?_⟩ <;> simp [optimize, hempty]

/-- Witness for C5: scenario "zero vehicles supplied". -/
theorem empty_input_returns_error_witness :
    (([] : List Vehicle) = [] ∨ ([] : List Vehicle) = []) ∧
    (optimize exLocations [] false true 30 exSolver 0).success = false ∧
    (optimize exLocations [] false true 30 exSolver 0).error =
      some "No locations or vehicles provided" ∧
    "No locations or vehicles provided" ≠ "" ∧
    (optimize exLocations [] false true 30 exSolver 0).solve_time_ms = 0 ∧
    (optimize exLocations [] false true 30 exSolver 0).routes = [] ∧
    (∀ solver2 : List (ℕ × ℤ × ℤ) → Option (List (List ℕ)),
      optimize exLocations [] false true 30 solver2 0 =
        optimize exLocations [] false true 30 exSolver 0) := by
  exact ⟨Or.inl rfl,
    empty_input_returns_error exLocations [] false true 30 exSolver 0 (Or.inr rfl)⟩

/-- Claim C7: `create_distance_matrix` is N×N (N = number of locations);
the diagonal is zero and the off-diagonal entry `(i, j)` is the haversine
distance in whole meters — kilometers times 1000, truncated toward zero
(Python `int`). -/
theorem create_distance_matrix_spec (locations : List Location) :
    (create_distance_matrix locations).length = locations.length ∧
    (∀ i : Fin locations.length,
      ((create_distance_matrix locations).getD i []).length = locations.length) ∧
    (∀ i j : Fin locations.length,
      matEntry (create_distance_matrix locations) i j =
        if i = j then 0
        else
          pythonTrunc
            (haversine_distance (locations.get i).lat (locations.get i).lon
                (locations.get j).lat (locations.get j).lon * 1000)) := by
  refine ⟨by simp [create_distance_matrix], fun i => ?_, fun i j => ?_⟩
  · have h1 : (i : ℕ) < (create_distance_matrix locations).length := by
      simpa [create_distance_matrix] using i.isLt
    rw [List.getD_eq_getElem _ _ h1]
    simp [create_distance_matrix]
  · have h1 : (i : ℕ) < (create_distance_matrix locations).length := by
      simpa [create_distance_matrix] using i.isLt
    have h2 : (j : ℕ) < ((create_distance_matrix locations)[(i : ℕ)]).length := by
      have : ((create_distance_matrix locations)[(i : ℕ)]).length = locations.length := by
        simp [create_distance_matrix]
      simpa [this] using j.isLt
    simp only [matEntry, List.getD_eq_getElem _ _ h1, List.getD_eq_getElem _ _ h2]
    simp [create_distance_matrix]

/-- Claim C8: `create_time_matrix` is N×N for an N×N distance matrix; for
`i ≠ j` and positive speed, a nonnegative distance entry yields
`time[i][j] = ⌊distance[i][j] / (avg_speed_kmh * 1000 / 60)⌋` in whole
minutes, and omitting the argument means speed 30
(`create_time_matrix_default`). -/
theorem create_time_matrix_spec (dm : List (List ℤ)) (speed : ℝ)
    (hspeed : 0 < speed) (hnn : ∀ i j : Fin dm.length, 0 ≤ matEntry dm i j) :
    (create_time_matrix dm speed).length = dm.length ∧
    (∀ i : Fin dm.length, ((create_time_matrix dm speed).getD i []).length = dm.length) ∧
    (∀ i j : Fin dm.length, i ≠ j →
      matEntry (create_time_matrix dm speed) i j =
        ⌊(matEntry dm i j : ℝ) / (speed * 1000 / 60)⌋) ∧
    create_time_matrix_default dm = create_time_matrix dm 30 := by
  have hpos : (0 : ℝ) < speed * 1000 / 60 :=
    div_pos (mul_pos hspeed (by norm_num)) (by norm_num)
  refine ⟨by simp [create_time_matrix], fun i => ?_, fun i j hij => ?_, rfl⟩
  · have h1 : (i : ℕ) < (create_time_matrix dm speed).length := by
      simpa [create_time_matrix] using i.isLt
    rw [List.getD_eq_getElem _ _ h1]
    simp [create_time_matrix]
  · have h1 : (i : ℕ) < (create_time_matrix dm speed).length := by
      simpa [create_time_matrix] using i.isLt
    have h2 : (j : ℕ) < ((create_time_matrix dm speed)[(i : ℕ)]).length := by
      have : ((create_time_matrix dm speed)[(i : ℕ)]).length = dm.length := by
        simp [create_time_matrix]
      simpa [this] using j.isLt
    simp only [matEntry, List.getD_eq_getElem _ _ h1, List.getD_eq_getElem _ _ h2]
    simp only [create_time_matrix, List.getElem_ofFn, Fin.eta]
    rw [if_neg hij]
    have hx : (0 : ℝ) ≤ ((dm.getD i []).getD j 0 : ℝ) / (speed * 1000 / 60) :=
      div_nonneg (by exact_mod_cast hnn i j) hpos.le
    simp only [pythonTrunc, matEntry]
    rw [if_pos hx]

/-- Witness for C8 at the concrete matrix `exDM` and the default speed. -/
theorem create_time_matrix_spec_witness :
    ((0 : ℝ) < 30) ∧ (∀ i j : Fin exDM.length, 0 ≤ matEntry exDM i j) ∧
    ((create_time_matrix exDM 30).length = exDM.length ∧
      (∀ i : Fin exDM.length, ((create_time_matrix exDM 30).getD i []).length = exDM.length) ∧
      (∀ i j : Fin exDM.length, i ≠ j →
        matEntry (create_time_matrix exDM 30) i j =
          ⌊(matEntry exDM i j : ℝ) / (30 * 1000 / 60)⌋) ∧
      create_time_matrix_default exDM = create_time_matrix exDM 30) := by
  exact ⟨by norm_num, by decide, create_time_matrix_spec exDM 30 (by norm_num) (by decide)⟩

/-- Claim C10: a non-depot location with exactly one of its time-window
bounds set registers no range on the `Time` dimension — the constraint
list is exactly what it would be with no window at all — and `optimize`
surfaces no error for it (its only error values are the two fixed input
and feasibility messages). -/
theorem half_time_window_silently_ignored (locations : List Location) (idx : ℕ)
    (h0 : idx ≠ 0) (hlt : idx < locations.length)
    (hone :
      ((locations.getD idx default).time_window_start ≠ none ∧
        (locations.getD idx default).time_window_end = none) ∨
      ((locations.getD idx default).time_window_start = none ∧
        (locations.getD idx default).time_window_end ≠ none)) :
    (∀ s e : ℤ, (idx, s, e) ∉ timeWindowConstraints locations) ∧
    timeWindowConstraints
        (locations.set idx
          { locations.getD idx default with
              time_window_start := none, time_window_end := none }) =
      timeWindowConstraints locations ∧
    (∀ (vehicles : List Vehicle) (uw br : Bool) (sp : ℝ)
        (solver : List (ℕ × ℤ × ℤ) → Option (List (List ℕ))) (st : ℤ),
      (optimize locations vehicles uw br sp solver st).error = none ∨
      (optimize locations vehicles uw br sp solver st).error =
        some "No locations or vehicles provided" ∨
      (optimize locations vehicles uw br sp solver st).error =
        some "No feasible solution found") := by
  refine ⟨?_, ?_, ?_⟩
  · intro s e hmem
    simp only [timeWindowConstraints, List.mem_filterMap, List.mem_range] at hmem
    obtain ⟨m, hm, hfm⟩ := hmem
    by_cases hm0 : m = 0
    · rw [if_pos hm0] at hfm
      exact absurd hfm (by simp)
    · rw [if_neg hm0] at hfm
      rcases hw1 : (locations.getD m default).time_window_start with _ | s1 <;>
        rcases hw2 : (locations.getD m default).time_window_end with _ | e1 <;>
          simp only [hw1, hw2] at hfm
      · exact absurd hfm (by simp)
      · exact absurd hfm (by simp)
      · exact absurd hfm (by simp)
      · obtain ⟨rfl, -, -⟩ : m = idx ∧ s1 = s ∧ e1 = e := by
          simpa using hfm
        rcases hone with ⟨-, he⟩ | ⟨hs, -⟩
        · rw [hw2] at he
          exact absurd he (by simp)
        · rw [hw1] at hs
          exact absurd hs (by simp)
  · have hlen : (locations.set idx
        { locations.getD idx default with
            time_window_start := none, time_window_end := none }).length =
        locations.length := List.length_set locations _ _
    simp only [timeWindowConstraints, hlen]
    apply List.filterMap_congr
    intro m hm
    have hmlt : m < locations.length := List.mem_range.mp hm
    by_cases hm0 : m = 0
    · rw [if_pos hm0, if_pos hm0]
    · rw [if_neg hm0, if_neg hm0]
      by_cases hmi : m = idx
      · subst hmi
        have hset : (locations.set m
            { locations.getD m default with
                time_window_start := none, time_window_end := none }).getD m default =
            { locations.getD m default with
                time_window_start := none, time_window_end := none } := by
          rw [List.getD_eq_getElem _ _ (by simpa [List.length_set] using hlt)]
          exact List.getElem_set_self (by simpa [List.length_set] using hlt)
        rw [hset]
        rcases hone with ⟨hs, he⟩ | ⟨hs, he⟩
        · rcases hw1 : (locations.getD m default).time_window_start with _ | s1
          · exact absurd hw1 hs
          · simp only [he]
        · simp only [hs]
      · have hset : (locations.set idx
            { locations.getD idx default with
                time_window_start := none, time_window_end := none }).getD m default =
            locations.getD m default := by
          rw [List.getD_eq_getElem _ _ (by simpa [List.length_set] using hmlt),
            List.getD_eq_getElem _ _ hmlt]
          exact List.getElem_set_ne (fun h => hmi h.symm) _
        rw [hset]
  · intro vehicles uw br sp solver st
    simp only [optimize]
    by_cases hempty : locations.isEmpty || vehicles.isEmpty
    · rw [if_pos hempty]
      right; left; rfl
    · rw [if_neg hempty]
      rcases hs : solver (if uw then timeWindowConstraints locations else []) with _ | paths
      · right; right; rfl
      · left
        simp [extractSolution]

/-- Witness for C10: stop `A` carries `time_window_start = 10` and no
`time_window_end`. -/
theorem half_time_window_silently_ignored_witness :
    ((1 : ℕ) ≠ 0) ∧ (1 < (twLocations).length) ∧
    (((twLocations.getD 1 default).time_window_start ≠ none ∧
        (twLocations.getD 1 default).time_window_end = none) ∨
      ((twLocations.getD 1 default).time_window_start = none ∧
        (twLocations.getD 1 default).time_window_end ≠ none)) ∧
    ((∀ s e : ℤ, (1, s, e) ∉ timeWindowConstraints twLocations) ∧
      timeWindowConstraints
          (twLocations.set 1
            { twLocations.getD 1 default with
                time_window_start := none, time_window_end := none }) =
        timeWindowConstraints twLocations ∧
      (∀ (vehicles : List Vehicle) (uw br : Bool) (sp : ℝ)
          (solver : List (ℕ × ℤ × ℤ) → Option (List (List ℕ))) (st : ℤ),
        (optimize twLocations vehicles uw br sp solver st).error = none ∨
        (optimize twLocations vehicles uw br sp solver st).error =
          some "No locations or vehicles provided" ∨
        (optimize twLocations vehicles uw br sp solver st).error =
          some "No feasible solution found")) := by
  exact ⟨by decide, by decide, Or.inl ⟨by decide, by decide⟩,
    half_time_window_silently_ignored twLocations 1 (by decide) (by decide)
      (Or.inl ⟨by decide, by decide⟩)⟩

/-- Claim C2: on a successful `optimize` call with distinct location ids
and a solver assignment satisfying the model constraints, every non-depot
stop's id either belongs to exactly one returned route or belongs to the
unassigned list — never both, never neither; and it is in the unassigned
list exactly when the solver left the node's next-variable a self-loop
(the node lies on no vehicle chain). -/
theorem stop_in_one_route_or_unassigned (locations : List Location)
    (vehicles : List Vehicle) (uw br : Bool) (sp : ℝ)
    (solver : List (ℕ × ℤ × ℤ) → Option (List (List ℕ))) (st : ℤ)
    (hsol : ∀ twc paths, solver twc = some paths → ValidSolution locations vehicles paths)
    (hinj : ∀ i, i < locations.length → ∀ j, j < locations.length →
      (locations.getD i default).id = (locations.getD j default).id → i = j)
    (hsucc : (optimize locations vehicles uw br sp solver st).success = true)
    (node : ℕ) (h0 : 0 < node) (hn : node < locations.length) :
    (((∃! rt, rt ∈ (optimize locations vehicles uw br sp solver st).routes ∧
        (locations.getD node default).id ∈ rt.stops.map RouteStop.location_id) ∧
      (locations.getD node default).id ∉
        (optimize locations vehicles uw br sp solver st).unassigned) ∨
     ((∀ rt ∈ (optimize locations vehicles uw br sp solver st).routes,
        (locations.getD node default).id ∉ rt.stops.map RouteStop.location_id) ∧
      (locations.getD node default).id ∈
        (optimize locations vehicles uw br sp solver st).unassigned)) ∧
    (∀ paths, solver (if uw then timeWindowConstraints locations else []) = some paths →
      (selfLoop paths node = true ↔
        (locations.getD node default).id ∈
          (optimize locations vehicles uw br sp solver st).unassigned)) := by
  simp only [optimize] at hsucc ⊢
  by_cases hempty : locations.isEmpty || vehicles.isEmpty
  · rw [if_pos hempty] at hsucc
    exact absurd hsucc (by simp)
  · rw [if_neg hempty] at hsucc ⊢
    rcases hs : solver (if uw then timeWindowConstraints locations else []) with _ | paths
    · rw [hs] at hsucc
      exact absurd hsucc (by simp)
    · have hmain := extract_partition locations vehicles (create_distance_matrix locations)
        (create_time_matrix (create_distance_matrix locations) sp) paths st
        (hsol _ _ hs) hinj node h0 hn
      refine ⟨hmain.1, ?_⟩
      intro paths2 hs2
      obtain rfl := Option.some.inj hs2
      exact hmain.2

/-- Witness for C2 at a concrete input: node 1 (stop `A`) on the
successful single-vehicle call. -/
theorem stop_in_one_route_or_unassigned_witness :
    (∀ twc paths, exSolver twc = some paths → ValidSolution exLocations exVehicles paths) ∧
    (∀ i, i < exLocations.length → ∀ j, j < exLocations.length →
      (exLocations.getD i default).id = (exLocations.getD j default).id → i = j) ∧
    (optimize exLocations exVehicles false true 30 exSolver 0).success = true ∧
    ((0 : ℕ) < 1) ∧ (1 < exLocations.length) ∧
    ((((∃! rt, rt ∈ (optimize exLocations exVehicles false true 30 exSolver 0).routes ∧
        (exLocations.getD 1 default).id ∈ rt.stops.map RouteStop.location_id) ∧
      (exLocations.getD 1 default).id ∉
        (optimize exLocations exVehicles false true 30 exSolver 0).unassigned) ∨
     ((∀ rt ∈ (optimize exLocations exVehicles false true 30 exSolver 0).routes,
        (exLocations.getD 1 default).id ∉ rt.stops.map RouteStop.location_id) ∧
      (exLocations.getD 1 default).id ∈
        (optimize exLocations exVehicles false true 30 exSolver 0).unassigned)) ∧
    (∀ paths, exSolver (if false then timeWindowConstraints exLocations else []) = some paths →
      (selfLoop paths 1 = true ↔
        (exLocations.getD 1 default).id ∈
          (optimize exLocations exVehicles false true 30 exSolver 0).unassigned))) := by
  have hsol : ∀ twc paths, exSolver twc = some paths →
      ValidSolution exLocations exVehicles paths := by
    intro twc paths h
    obtain rfl := Option.some.inj h
    exact ⟨by decide, by decide, by decide, by decide, by decide⟩
  have hinj : ∀ i, i < exLocations.length → ∀ j, j < exLocations.length →
      (exLocations.getD i default).id = (exLocations.getD j default).id → i = j := by
    decide
  have hsucc : (optimize exLocations exVehicles false true 30 exSolver 0).success = true := by
    decide
  exact ⟨hsol, hinj, hsucc, by decide, by decide,
    stop_in_one_route_or_unassigned exLocations exVehicles false true 30 exSolver 0
      hsol hinj hsucc 1 (by decide) (by decide)⟩

end VRP
